import Mathlib

/-!
Verification development for the AfC statistics task
(`bot/tasks/afc_statistics.py`).

Shallow embedding conventions:
* MySQL datetimes are modelled as seconds since the Unix epoch (`Time := Nat`);
  `ADDTIME(t, '36:00:00')` is `t + 129600` and datetime comparison is `<` on
  seconds.  The replica's `YYYYMMDDHHMMSS` wire format parsed by `strptime` is
  absorbed into the replica interface, which hands back `Time` values directly.
* The two MySQL tables `page` and `row` are lists of records; SQL `UPDATE`,
  `DELETE` and `JOIN` statements become the corresponding list operations.
  Result-set iteration (`for ... in cursor`) is modelled as iteration over the
  snapshot returned by the query at the point it was executed.
* Python exceptions (IndexError, NameError, TypeError, AttributeError and
  database ProgrammingError) are modelled with `Except String`; an `.error`
  value means the Python call raised.
* Python truthiness on nullable columns: `None` and the empty string (or 0)
  are falsy, everything else is truthy.
* External collaborators (wiki client, replica queries, category membership,
  configuration) are bundled into a `World` record, per spec section 6.
-/

namespace AfcStats

/-- MySQL DATETIME values, modelled as seconds since the Unix epoch. -/
abbrev Time := Nat

/-- One record of the `page` table, fields in the column order used by the
`INSERT INTO page VALUES (?, ..., ?)` statement of `track_page`. -/
structure PageRow where
  page_id : Nat
  page_status : Option String
  page_title : String
  page_short : String
  page_size : Nat
  page_notes : Option String
  page_create_user : String
  page_create_time : Nat
  page_create_oldid : Nat
  page_modify_user : String
  page_modify_time : Nat
  page_modify_oldid : Nat
  page_special_user : Option String
  page_special_time : Option Nat
  page_special_oldid : Option Nat
deriving DecidableEq

/-- One record of the `row` table (`INSERT INTO row VALUES (?, ?)`). -/
structure RowEntry where
  row_id : Nat
  row_chart : Nat
deriving DecidableEq

/-- The local relational mirror: the `page` table and the `row` table. -/
structure Store where
  pages : List PageRow
  rows : List RowEntry
deriving DecidableEq

/-- A wiki page as seen through the wiki client: `pageid()`, `title()`
(canonical form), `get()` (content), `is_redirect()`, and the namespace of
`get_redirect_target()` (meaningful only for redirects). -/
structure WikiPage where
  pageid : Nat
  title : String
  content : String
  is_redirect : Bool
  redirect_target_ns : Int
deriving DecidableEq

/-- External collaborators: the wiki client, the read replica, the category
query and the task configuration, static for the duration of one operation.
`replica_latest` is `page_latest` keyed by the replica's `page_id` (`none`
when the page row does not exist), `replica_latest_by_title` the same keyed
by `page_title`, and `replica_id_by_title` is `page_id` keyed by title.
`rev_user`/`rev_time` give `rev_user_text`/`rev_timestamp` of a revision id;
the replica is assumed internally consistent, i.e. every `page_latest`
pointer has a matching `revision` row.  `pending_members` is the (bounded,
at most 500 element) result of the pending-category members query and
`ignore_list` the configured ignore list. -/
structure World where
  get_page : String → WikiPage
  replica_latest : Nat → Option Nat
  replica_latest_by_title : String → Option Nat
  replica_id_by_title : String → Option Nat
  rev_user : Nat → String
  rev_time : Nat → Nat
  pending_members : List String
  ignore_list : List String
  now : Nat

/-- Python truthiness of a nullable string column. -/
def pyTruthyStrOpt : Option String → Bool
  | none => false
  | some s => !(s == "")

/-- Python truthiness of a nullable integer column. -/
def pyTruthyNatOpt : Option Nat → Bool
  | none => false
  | some n => !(n == 0)

/-- Python `str.lower`, applied for the `re.I` flag. -/
def lowerStr (s : String) : String := ⟨s.data.map Char.toLower⟩

/-- Scans for a closing double-brace before the next newline: the tail of the
pattern, where the lazy dot group matches any characters except a newline. -/
def closesBeforeNewline : List Char → Bool
  | [] => false
  | '\n' :: _ => false
  | '\x7d' :: '\x7d' :: _ => true
  | _ :: rest => closesBeforeNewline rest

/-- `re.search` of `pre` followed by a lazily matched run and a closing
double-brace: tries every start position, like Python's `re.search`. -/
def searchFrom (pre : List Char) : List Char → Bool
  | [] => false
  | c :: rest =>
      (pre.isPrefixOf (c :: rest) && closesBeforeNewline (List.drop pre.length (c :: rest)))
      || searchFrom pre rest

/-- The submission-marker patterns of `get_status_and_chart`: a search for
the template opening, the flag character, a pipe, lazily matched filler and a
closing double-brace, case-insensitively (`re.I`). -/
def re_search_afc (flag : String) (content : String) : Bool :=
  searchFrom ("\x7b\x7bafc submission|" ++ flag ++ "|").data (lowerStr content).data

/-- `get_status_and_chart`: the pure status classifier.  Redirects are
resolved through the fields of the `WikiPage`; the marker checks run in the
source's order with first match winning. -/
def get_status_and_chart (page : WikiPage) : Option String × Nat :=
  if page.is_redirect then
    if page.redirect_target_ns == 0 then (some "accept", 4)
    else (none, 0)
  else if re_search_afc "r" page.content then (some "review", 3)
  else if re_search_afc "h" page.content then (some "pend", 2)
  else if re_search_afc "" page.content then (some "pend", 1)
  else if re_search_afc "t" page.content then (none, 0)
  else if re_search_afc "d" page.content then (some "decline", 5)
  else (none, 0)

/-- Spec-side restatement of the classifier rule list of claim C2, written
from the claim's words (rules checked in fixed order, first match wins), to
be compared with the implementation `get_status_and_chart`. -/
def classifier_spec (content : String) (isRedirect : Bool) (targetNs : Int) :
    Option String × Nat :=
  if isRedirect then
    if targetNs == 0 then (some "accept", 4)
    else (none, 0)
  else if re_search_afc "r" content then (some "review", 3)
  else if re_search_afc "h" content then (some "pend", 2)
  else if re_search_afc "" content then (some "pend", 1)
  else if re_search_afc "t" content then (none, 0)
  else if re_search_afc "d" content then (some "decline", 5)
  else (none, 0)

/-- C2: for every input (content, redirect status, redirect-target
namespace), the classifier is a total pure function (hence deterministic,
side-effect-free and never throwing), agrees with the spec's rule cascade
checked in fixed order with first match winning, and returns one of the six
defined (status, chart) outcomes. -/
theorem classifier_total_and_ordered : ∀ page : WikiPage,
    get_status_and_chart page
      = classifier_spec page.content page.is_redirect page.redirect_target_ns
    ∧ get_status_and_chart page ∈
        [(some "accept", 4), (none, 0), (some "review", 3),
         (some "pend", 2), (some "pend", 1), (some "decline", 5)] := by
  intro page
  refine ⟨rfl, ?_⟩
  unfold get_status_and_chart
  split_ifs <;> simp

/-- One whitespace character, Python's `\s` on ASCII input. -/
def wsChar (c : Char) : Bool :=
  c == ' ' || c == '\t' || c == '\n' || c == '\r' || c == '\x0b' || c == '\x0c'

/-- Consume a literal from the front of the character list. -/
def stripLit (lit : List Char) (cs : List Char) : Option (List Char) :=
  if lit.isPrefixOf cs then some (cs.drop lit.length) else none

/-- Consume one whitespace character (a single `\s`). -/
def stripWs : List Char → Option (List Char)
  | c :: rest => if wsChar c then some rest else none
  | [] => none

/-- Tail of the short-title pattern: a colon, the word Articles, one
whitespace, the word for, one whitespace, and the creation segment. -/
def matchAfcTail (cs : List Char) : Option (List Char) := do
  let cs1 ← stripLit ":Articles".data cs
  let cs2 ← stripWs cs1
  let cs3 ← stripLit "for".data cs2
  let cs4 ← stripWs cs3
  stripLit "creation/".data cs4

/-- The full short-title pattern including the optional greedy
whitespace-then-talk group, with backtracking to the group-less branch. -/
def matchAfcFull (cs : List Char) : Option (List Char) :=
  match stripLit "Wikipedia".data cs with
  | none => none
  | some cs1 =>
    match
      (match stripLit "talk".data (cs1.dropWhile wsChar) with
       | some r => matchAfcTail r
       | none => none) with
    | some r => some r
    | none => matchAfcTail cs1

/-- `re.sub` scan: at each position either remove a match and continue after
it or keep the character.  Fuel equals the list length, which suffices since
every step consumes at least one character. -/
def subAfcAux : Nat → List Char → List Char
  | 0, cs => cs
  | _ + 1, [] => []
  | fuel + 1, c :: rest =>
    match matchAfcFull (c :: rest) with
    | some r => subAfcAux fuel r
    | none => c :: subAfcAux fuel rest

/-- `get_short_title`: strips the project-page prefix occurrences from the
title via the substitution pattern. -/
def get_short_title (title : String) : String :=
  ⟨subAfcAux title.data.length title.data⟩

/-- Zero-padded two-digit rendering, as the strftime numeric directives. -/
def pad2 (n : Nat) : String := if n < 10 then "0" ++ toString n else toString n

/-- Full English month names for the strftime month-name directive. -/
def monthName : Nat → String
  | 1 => "January"
  | 2 => "February"
  | 3 => "March"
  | 4 => "April"
  | 5 => "May"
  | 6 => "June"
  | 7 => "July"
  | 8 => "August"
  | 9 => "September"
  | 10 => "October"
  | 11 => "November"
  | 12 => "December"
  | _ => ""

/-- Civil date (year, month, day) from days since the Unix epoch. -/
def civilFromDays (days : Nat) : Nat × Nat × Nat :=
  let z := days + 719468
  let era := z / 146097
  let doe := z % 146097
  let yoe := (doe - doe / 1460 + doe / 36524 - doe / 146096) / 365
  let y := yoe + era * 400
  let doy := doe - (365 * yoe + yoe / 4 - yoe / 100)
  let mp := (5 * doy + 2) / 153
  let d := doy - (153 * mp + 2) / 5 + 1
  let m := if mp < 10 then mp + 3 else mp - 9
  (if m ≤ 2 then y + 1 else y, m, d)

/-- `format_time`: strftime with the hour:minute, day month-name year
pattern used for every rendered timestamp. -/
def format_time (t : Time) : String :=
  let days := t / 86400
  let secs := t % 86400
  let ymd := civilFromDays days
  pad2 (secs / 3600) ++ ":" ++ pad2 ((secs % 3600) / 60) ++ ", " ++
    pad2 ymd.2.2 ++ " " ++ monthName ymd.2.1 ++ " " ++ toString ymd.1

/-- `get_notes`: an unimplemented stub in the source, always `None`. -/
def get_notes (_page : WikiPage) : Option String := none

/-- `get_special`: an unimplemented stub in the source, always a triple of
`None`. -/
def get_special (_page : WikiPage) (_status : Option String) :
    Option String × Option Time × Option Nat :=
  (none, none, none)

/-- `get_create`: the source rebinds `query1` and then executes the
undefined name `query2`.  The first query (the by-revision-id lookup run
with the page id as parameter) returns a row for every id in our model of a
consistent replica, so the call always reaches the undefined name and raises
NameError before producing a value. -/
def get_create (_w : World) (_pageid : Nat) : Except String (String × Time × Nat) :=
  Except.error "NameError"

/-- `get_modify`: the revision matching the replica's `page_latest` pointer
for the page.  When the page row is absent the join is empty and
`list(result)[0]` raises IndexError. -/
def get_modify (w : World) (pageid : Nat) : Except String (String × Time × Nat) :=
  match w.replica_latest pageid with
  | none => Except.error "IndexError"
  | some l => Except.ok (w.rev_user l, w.rev_time l, l)

/-- Apply a record transformation to every page row and every row-table
entry whose key equals `pid`: the semantics of the source's UPDATE
statements with a page-id WHERE clause. -/
def map_pid (st : Store) (pid : Nat) (fP : PageRow → PageRow) (fR : RowEntry → RowEntry) :
    Store :=
  ⟨st.pages.map (fun p => if p.page_id == pid then fP p else p),
   st.rows.map (fun r => if r.row_id == pid then fR r else r)⟩

/-- UPDATE page SET page_title, page_short WHERE page_id. -/
def set_title_short (st : Store) (pid : Nat) (t s : String) : Store :=
  map_pid st pid (fun p => { p with page_title := t, page_short := s }) id

/-- UPDATE page SET page_size and the modify triple WHERE page_id. -/
def set_modify (st : Store) (pid : Nat) (z : Nat) (u : String) (tm : Time) (i : Nat) :
    Store :=
  map_pid st pid
    (fun p => { p with page_size := z, page_modify_user := u,
                       page_modify_time := tm, page_modify_oldid := i }) id

/-- UPDATE page JOIN row SET page_status, row_chart WHERE page_id; the join
always contains every matching record because the caller has already
fetched a joined record for this page id. -/
def set_status_chart (st : Store) (pid : Nat) (s : Option String) (c : Nat) : Store :=
  map_pid st pid (fun p => { p with page_status := s })
    (fun r => { r with row_chart := c })

/-- UPDATE page SET the special triple WHERE page_id. -/
def set_special (st : Store) (pid : Nat)
    (u : Option String) (t : Option Time) (i : Option Nat) : Store :=
  map_pid st pid
    (fun p => { p with page_special_user := u, page_special_time := t,
                       page_special_oldid := i }) id

/-- UPDATE page SET page_notes WHERE page_id. -/
def set_notes (st : Store) (pid : Nat) (n : Option String) : Store :=
  map_pid st pid (fun p => { p with page_notes := n }) id

/-- SELECT * FROM page JOIN row ON page_id = row_id WHERE page_id = ?, in
the page-major order the cursor returns. -/
def join_by_pid (st : Store) (pid : Nat) : List (PageRow × RowEntry) :=
  (st.pages.filter (fun p => p.page_id == pid)).flatMap
    (fun p => (st.rows.filter (fun r => r.row_id == p.page_id)).map (fun r => (p, r)))

/-- `untrack_page`: the statement text joins the two tables directly inside
a single-table DELETE, which MySQL's grammar rejects, and additionally binds
the column name as a string parameter, so the WHERE clause could never
reference a column.  Executing the statement therefore raises; with both
keyword arguments absent (or falsy, per Python truthiness) no statement is
executed and the call returns without touching the store. -/
def untrack_page (st : Store) (pageid : Option Nat) (title : Option String) :
    Except String Store :=
  if pyTruthyNatOpt pageid then Except.error "ProgrammingError"
  else if pyTruthyStrOpt title then Except.error "ProgrammingError"
  else Except.ok st

/-- `track_page`: classify, skip non-tracked and terminal statuses, then
collect the field values and insert one record into each table.  The
`get_create` call always raises, so the insert path never completes. -/
def track_page (w : World) (st : Store) (title0 : String) :
    Except String (Store × List String) :=
  let page := w.get_page title0
  let sc := get_status_and_chart page
  let status := sc.1
  let chart := sc.2
  if !(pyTruthyStrOpt status) || status == some "accept" || status == some "decline" then
    Except.ok (st, [])
  else
    let pageid := page.pageid
    let title := page.title
    let short := get_short_title title
    let size := page.content.length
    let notes := get_notes page
    match get_create w pageid with
    | Except.error e => Except.error e
    | Except.ok c =>
      match get_modify w pageid with
      | Except.error e => Except.error e
      | Except.ok m =>
        let s := get_special page status
        Except.ok (⟨st.pages ++ [⟨pageid, status, title, short, size, notes,
               c.1, c.2.1, c.2.2, m.1, m.2.1, m.2.2, s.1, s.2.1, s.2.2⟩],
             st.rows ++ [⟨pageid, chart⟩]⟩,
            ["insert_row", "insert_page"])

/-- `update_page`: classify; on a falsy status call untrack (the source has
no `return` after the call, so execution falls through when untrack
returns); then recompute the field groups and write each group only when it
differs from the fetched record.  The returned list logs the UPDATE
statements that were executed. -/
def update_page (w : World) (st : Store) (title0 : String) :
    Except String (Store × List String) :=
  let page := w.get_page title0
  let sc := get_status_and_chart page
  let status := sc.1
  let chart := sc.2
  match (if !(pyTruthyStrOpt status) then untrack_page st none (some title0)
         else Except.ok st) with
  | Except.error e => Except.error e
  | Except.ok st =>
  let pageid := page.pageid
  let title := page.title
  let size := page.content.length
  let notes := get_notes page
  match get_modify w pageid with
  | Except.error e => Except.error e
  | Except.ok m =>
  match join_by_pid st pageid with
  | [] => Except.error "IndexError"
  | (result, _resultRow) :: _ =>
    let step1 : Store × List String :=
      if title ≠ result.page_title then
        (set_title_short st pageid title (get_short_title title), ["title"])
      else (st, [])
    let step2 : Store × List String :=
      if m.2.2 ≠ result.page_modify_oldid then
        (set_modify step1.1 pageid size m.1 m.2.1 m.2.2, step1.2 ++ ["modify"])
      else step1
    let step3 : Store × List String :=
      if status ≠ result.page_status then
        let stA := set_status_chart step2.1 pageid status chart
        let s := get_special page status
        if s.2.2 ≠ result.page_special_oldid then
          (set_special stA pageid s.1 s.2.1 s.2.2, step2.2 ++ ["status", "special"])
        else (stA, step2.2 ++ ["status"])
      else step2
    let step4 : Store × List String :=
      if notes ≠ result.page_notes then
        (set_notes step3.1 pageid notes, step3.2 ++ ["notes"])
      else step3
    Except.ok step4

/-- `sync_page`: update when the page is already in the store, else track. -/
def sync_page (w : World) (st : Store) (title : String) : Except String Store :=
  if (st.pages.filter (fun p => p.page_title == title)).isEmpty then
    (track_page w st title).map Prod.fst
  else
    (update_page w st title).map Prod.fst

/-- `process_edit` / `process_restore`: skip ignored titles, else sync. -/
def process_edit (w : World) (st : Store) (title : String) : Except String Store :=
  if title ∈ w.ignore_list then Except.ok st else sync_page w st title

/-- UPDATE page SET page_title = dest, page_modify_oldid WHERE page_title =
source: the in-place title re-point of `process_move`. -/
def set_title_oldid (st : Store) (source dest : String) (oldid : Nat) : Store :=
  ⟨st.pages.map (fun p =>
      if p.page_title == source then
        { p with page_title := dest, page_modify_oldid := oldid }
      else p),
   st.rows⟩

/-- `process_move`: track the destination when the source is unknown, else
re-point the title, refreshing the modify revision id from the replica.  On
an empty replica lookup the source evaluates the twelfth ROW of the fetched
result list (`result[11]`), not the twelfth column of its first row: with
fewer than twelve matching store rows this raises IndexError, and otherwise
a whole row tuple would be bound as the integer parameter, which the driver
rejects. -/
def process_move (w : World) (st : Store) (source dest : String) :
    Except String Store :=
  let result := st.pages.filter (fun p => p.page_title == source)
  if result.isEmpty then (track_page w st dest).map Prod.fst
  else
    match w.replica_latest_by_title dest with
    | some new_oldid => Except.ok (set_title_oldid st source dest new_oldid)
    | none =>
        if result.length ≤ 11 then Except.error "IndexError"
        else Except.error "TypeError"

/-- `process_delete`: look the title up in the replica.  When the page is
present the fetched row is a nonempty tuple, hence truthy, so the code
syncs; the untrack branch of the source is unreachable because a nonempty
row tuple is never falsy.  When the page is absent, `list(result)[0]` on the
empty result raises IndexError. -/
def process_delete (w : World) (st : Store) (page : String) : Except String Store :=
  match w.replica_id_by_title page with
  | some _ => sync_page w st page
  | none => Except.error "IndexError"

/-- Sweep pass 1 over the snapshot of tracked pages: confirm each page id
exists in the replica.  The existence test `if not list(result)[0]` tests
the truthiness of the returned row tuple, which is nonempty whenever a row
exists, so the pass never untracks; on an absent page the indexing of the
empty result raises IndexError. -/
def sync_deleted_aux (w : World) : List PageRow → Store → Except String Store
  | [], st => Except.ok st
  | p :: rest, st =>
    match w.replica_latest p.page_id with
    | some _ => sync_deleted_aux w rest st
    | none => Except.error "IndexError"

/-- `sync_deleted`: pass 1 of the sweep. -/
def sync_deleted (w : World) (st : Store) : Except String Store :=
  sync_deleted_aux w st.pages st

/-- Sweep pass 2 over the snapshot of (page_id, page_title,
page_modify_oldid) triples: compare each stored modify revision id with the
replica's `page_latest` and re-run the edit path on a difference.  An empty
replica lookup raises IndexError, which the source catches and converts
into an untrack call. -/
def sync_oldids_aux (w : World) : List (Nat × String × Nat) → Store → Except String Store
  | [], st => Except.ok st
  | e :: rest, st =>
    match w.replica_latest e.1 with
    | none =>
        match untrack_page st (some e.1) none with
        | Except.error err => Except.error err
        | Except.ok st' => sync_oldids_aux w rest st'
    | some real_oldid =>
        if real_oldid ≠ e.2.2 then
          match update_page w st e.2.1 with
          | Except.error err => Except.error err
          | Except.ok pr => sync_oldids_aux w rest pr.1
        else sync_oldids_aux w rest st

/-- `sync_oldids`: pass 2 of the sweep. -/
def sync_oldids (w : World) (st : Store) : Except String Store :=
  sync_oldids_aux w (st.pages.map (fun p => (p.page_id, p.page_title, p.page_modify_oldid))) st

/-- SELECT page_title FROM page JOIN row ... WHERE row_chart IN (1, 2, 3):
the titles already tracked in a pending bucket. -/
def tracked_titles (st : Store) : List String :=
  st.pages.flatMap (fun p =>
    (st.rows.filter (fun r => r.row_id == p.page_id &&
        (r.row_chart == 1 || r.row_chart == 2 || r.row_chart == 3))).map
      (fun _ => p.page_title))

/-- Sweep pass 3 over the category members: track every member that is
neither ignored nor already tracked (membership tested against the snapshot
taken before the loop). -/
def sync_pending_aux (w : World) (tracked : List String) :
    List String → Store → Except String Store
  | [], st => Except.ok st
  | page :: rest, st =>
    if page ∈ w.ignore_list then sync_pending_aux w tracked rest st
    else if page ∈ tracked then sync_pending_aux w tracked rest st
    else
      match track_page w st page with
      | Except.error err => Except.error err
      | Except.ok pr => sync_pending_aux w tracked rest pr.1

/-- `sync_pending`: pass 3 of the sweep. -/
def sync_pending (w : World) (st : Store) : Except String Store :=
  sync_pending_aux w (tracked_titles st) w.pending_members st

/-- True when some row-table entry for this page id sits in a terminal
chart bucket. -/
def terminalRowFor (st : Store) (pid : Nat) : Bool :=
  st.rows.any (fun r => r.row_id == pid && (r.row_chart == 4 || r.row_chart == 5))

/-- ADDTIME(page_special_time, 36 hours) < NOW(): false on a NULL time
because the SQL comparison with NULL is not true. -/
def specialExpired (now : Time) (p : PageRow) : Bool :=
  match p.page_special_time with
  | some t => decide (t + 129600 < now)
  | none => false

/-- `sync_old`, pass 4 of the sweep: the single multi-table DELETE removing
every joined (page, row) pair in a terminal bucket whose special time plus
36 hours lies before now. -/
def sync_old (st : Store) (now : Time) : Store :=
  ⟨st.pages.filter (fun p => !(terminalRowFor st p.page_id && specialExpired now p)),
   st.rows.filter (fun r => !((r.row_chart == 4 || r.row_chart == 5) &&
      st.pages.any (fun p => p.page_id == r.row_id && specialExpired now p)))⟩

/-- `sync`: the full four-pass sweep in source order. -/
def sync (w : World) (st : Store) : Except String Store :=
  match sync_deleted w st with
  | Except.error e => Except.error e
  | Except.ok st1 =>
    match sync_oldids w st1 with
    | Except.error e => Except.error e
    | Except.ok st2 =>
      match sync_pending w st2 with
      | Except.error e => Except.error e
      | Except.ok st3 => Except.ok (sync_old st3 w.now)

/-- A page content string carrying the bare pending submission marker. -/
def pendingContent : String := "\x7b\x7bafc submission||ts=20110101\x7d\x7d"

/-- A content string matching none of the submission markers. -/
def untrackedContent : String := "plain article text"

/-- A store with no records. -/
def emptyStore : Store := ⟨[], []⟩

/-- A sample tracked record with the given key fields. -/
def samplePage (pid : Nat) (status : Option String) (title : String) (moldid : Nat) :
    PageRow :=
  ⟨pid, status, title, title, 10, none, "creator", 0, 1, "editor", 3600, moldid,
   none, none, none⟩

/-- Fixture world for claim C3: the page at title X no longer matches any
marker. -/
def worldC3 : World :=
  ⟨fun t => ⟨1, t, untrackedContent, false, 0⟩,
   fun _ => some 5, fun _ => some 5, fun _ => some 1,
   fun _ => "editor", fun _ => 3600, [], [], 0⟩

/-- Fixture store for claim C3: title X is tracked as pending. -/
def storeC3 : Store := ⟨[samplePage 1 (some "pend") "X" 5], [⟨1, 1⟩]⟩

/-- C3 (code bug evaluation): on a tracked page whose classifier result is
(None, 0), `update_page` does not remove the record: the untrack call's
malformed DELETE raises, so the record stays in both tables (and had the
DELETE succeeded, the missing `return` would have sent execution on into
the field-update path). -/
theorem update_on_untracked_status_raises :
    update_page worldC3 storeC3 "X" = Except.error "ProgrammingError" := rfl

/-- Fixture world for claim C4: title P is an untracked pending
submission. -/
def worldC4 : World :=
  ⟨fun t => ⟨2, t, pendingContent, false, 0⟩,
   fun _ => some 10, fun _ => some 10, fun _ => some 2,
   fun _ => "editor", fun _ => 3600, [], [], 0⟩

/-- C4 (code bug evaluation): `track_page` on a fresh pending page raises
NameError (the creation lookup executes an undefined query name) before
inserting anything, and `untrack_page` raises on its malformed DELETE for
both key forms, deleting nothing, so the track/untrack round trip of the
claim can neither insert nor delete. -/
theorem track_untrack_both_raise :
    track_page worldC4 emptyStore "P" = Except.error "NameError"
    ∧ untrack_page emptyStore (some 7) none = Except.error "ProgrammingError"
    ∧ untrack_page emptyStore none (some "P") = Except.error "ProgrammingError" :=
  ⟨rfl, rfl, rfl⟩

/-- Fixture world for claim C5: no replica data at all. -/
def worldC5 : World :=
  ⟨fun t => ⟨3, t, pendingContent, false, 0⟩,
   fun _ => none, fun _ => none, fun _ => none,
   fun _ => "editor", fun _ => 3600, [], [], 0⟩

/-- C5 (code bug evaluation): a revision lookup for a page with no matching
revision raises IndexError instead of returning a clean not-found value,
and a delete event for a page absent from the replica raises IndexError out
of `process_delete` instead of untracking and continuing. -/
theorem revision_lookup_and_delete_raise :
    get_modify worldC5 99 = Except.error "IndexError"
    ∧ process_delete worldC5 emptyStore "Gone" = Except.error "IndexError" :=
  ⟨rfl, rfl⟩

/-- Fixture world for claim C6: the replica has no row for the destination
title B, and title D is an untracked pending submission. -/
def worldC6 : World :=
  ⟨fun t => ⟨4, t, pendingContent, false, 0⟩,
   fun _ => some 5, fun _ => none, fun _ => some 4,
   fun _ => "editor", fun _ => 3600, [], [], 0⟩

/-- Fixture store for claim C6: title A is tracked. -/
def storeC6 : Store := ⟨[samplePage 1 (some "pend") "A" 5], [⟨1, 1⟩]⟩

/-- C6 (code bug evaluation): when the replica lookup for the destination
returns nothing, the claimed fallback to the stored modify revision id
raises IndexError instead (`result[11]` indexes the twelfth row of a
one-row result); and the fresh-track path for an unknown source raises
NameError inside `track_page`, so the destination is not tracked. -/
theorem move_fallback_and_fresh_track_raise :
    process_move worldC6 storeC6 "A" "B" = Except.error "IndexError"
    ∧ process_move worldC6 storeC6 "C" "D" = Except.error "NameError" :=
  ⟨rfl, rfl⟩

/-- The terminal-bucket test in propositional form. -/
theorem terminalRowFor_iff (st : Store) (pid : Nat) :
    terminalRowFor st pid = true ↔
      ∃ r ∈ st.rows, r.row_id = pid ∧ (r.row_chart = 4 ∨ r.row_chart = 5) := by
  simp [terminalRowFor, List.any_eq_true, Bool.and_eq_true, Bool.or_eq_true, beq_iff_eq]

/-- The retention-window test in propositional form. -/
theorem specialExpired_iff (now : Time) (p : PageRow) :
    specialExpired now p = true ↔
      ∃ t0 : Nat, p.page_special_time = some t0 ∧ t0 + 129600 < now := by
  unfold specialExpired
  cases h : p.page_special_time <;> simp

/-- C8: the age-out pass keeps a record exactly when it is not (in a
terminal bucket and past the 36-hour window); a terminal record whose
special time is 36 hours and one second old is removed, one 35 hours old is
retained, and records without a terminal bucket entry are never touched. -/
theorem sync_old_retention : ∀ (st : Store) (now : Nat) (p : PageRow),
    (p ∈ (sync_old st now).pages ↔
      p ∈ st.pages ∧
      ¬ ((∃ r ∈ st.rows, r.row_id = p.page_id ∧ (r.row_chart = 4 ∨ r.row_chart = 5)) ∧
         (∃ t0 : Nat, p.page_special_time = some t0 ∧ t0 + 129600 < now)))
    ∧ (p ∈ st.pages → 129601 ≤ now → p.page_special_time = some (now - 129601) →
        (∃ r ∈ st.rows, r.row_id = p.page_id ∧ (r.row_chart = 4 ∨ r.row_chart = 5)) →
        p ∉ (sync_old st now).pages)
    ∧ (p ∈ st.pages → p.page_special_time = some (now - 126000) →
        p ∈ (sync_old st now).pages)
    ∧ (p ∈ st.pages →
        (∀ r ∈ st.rows, r.row_id = p.page_id → r.row_chart ≠ 4 ∧ r.row_chart ≠ 5) →
        p ∈ (sync_old st now).pages) := by
  intro st now p
  have hmem : p ∈ (sync_old st now).pages ↔
      p ∈ st.pages ∧
      ¬ ((∃ r ∈ st.rows, r.row_id = p.page_id ∧ (r.row_chart = 4 ∨ r.row_chart = 5)) ∧
         (∃ t0 : Nat, p.page_special_time = some t0 ∧ t0 + 129600 < now)) := by
    have hb : ∀ a b : Bool, (!(a && b)) = true ↔ ¬(a = true ∧ b = true) := by decide
    rw [← terminalRowFor_iff, ← specialExpired_iff]
    show p ∈ List.filter _ st.pages ↔ _
    rw [List.mem_filter]
    exact and_congr_right fun _ => hb _ _
  refine ⟨hmem, ?_, ?_, ?_⟩
  · intro hp hnow hsp hterm hin
    have harith : (now - 129601) + 129600 < now := by omega
    exact absurd ⟨hterm, ⟨now - 129601, hsp, harith⟩⟩ (hmem.1 hin).2
  · intro hp hsp
    refine hmem.2 ⟨hp, ?_⟩
    rintro ⟨-, t0, ht0, hlt⟩
    rw [hsp] at ht0
    injection ht0 with h
    omega
  · intro hp hch
    refine hmem.2 ⟨hp, ?_⟩
    rintro ⟨⟨r, hr, hrid, hrc⟩, -⟩
    rcases hch r hr hrid with ⟨h4, h5⟩
    rcases hrc with h | h
    · exact h4 h
    · exact h5 h

/-- A terminal-bucket record with explicit special fields, for the C8
boundary witness. -/
def specialPageC8 (pid : Nat) (t : Time) : PageRow :=
  ⟨pid, some "accept", "T", "T", 10, none, "c", 0, 1, "m", 0, 5,
   some "rev", some t, some 9⟩

/-- Store fixture for the C8 witness: two terminal records. -/
def storeC8 : Store :=
  ⟨[specialPageC8 1 870399, specialPageC8 2 874000], [⟨1, 4⟩, ⟨2, 5⟩]⟩

/-- Witness for C8 at now = 1000000: the record one second past the window
is removed, the one an hour inside it is retained. -/
theorem sync_old_retention_witness :
    specialPageC8 1 870399 ∉ (sync_old storeC8 1000000).pages
    ∧ specialPageC8 2 874000 ∈ (sync_old storeC8 1000000).pages := by
  constructor
  · exact (sync_old_retention storeC8 1000000 (specialPageC8 1 870399)).2.1
      (by decide) (by decide) (by decide) (by decide)
  · exact (sync_old_retention storeC8 1000000 (specialPageC8 2 874000)).2.2.1
      (by decide) (by decide)

/-- Header template name, the configuration default of the source. -/
def tl_header : String := "AFC statistics/header"

/-- Row template name, the configuration default of the source. -/
def tl_row : String := "AFC statistics/row"

/-- Footer template name, the configuration default of the source. -/
def tl_footer : String := "AFC statistics/footer"

/-- One record of the static `chart` catalog table. -/
structure Chart where
  chart_id : Nat
  chart_title : String
  special_title : Option String
deriving DecidableEq

/-- Python `str.format` of a nullable column: `None` renders as the string
None, a present string as itself. -/
def optStr : Option String → String
  | none => "None"
  | some s => s

/-- Python `str.format` of a nullable integer column. -/
def optNatStr : Option Nat → String
  | none => "None"
  | some n => toString n

/-- Python slicing `s[:-1]`: drop the final character. -/
def pyDropLast (s : String) : String := ⟨s.data.dropLast⟩

/-- `compile_chart_row`: the row template applied to one joined record.
The special triple is appended only for a truthy special user; formatting a
NULL special time then raises (strftime on None); the notes flag and text
are appended only for truthy notes. -/
def compile_chart_row (p : PageRow) : Except String String :=
  let row := tl_row ++ "|s=" ++ optStr p.page_status ++ "|t=" ++ p.page_title ++ "|h=" ++
      p.page_short ++ "|z=" ++ toString p.page_size ++ "|" ++
      "cr=" ++ p.page_create_user ++ "|cd=" ++ format_time p.page_create_time ++ "|ci=" ++
      toString p.page_create_oldid ++ "|" ++
      "mr=" ++ p.page_modify_user ++ "|md=" ++ format_time p.page_modify_time ++ "|mi=" ++
      toString p.page_modify_oldid ++ "|"
  match
    (if pyTruthyStrOpt p.page_special_user then
      match p.page_special_time with
      | none => Except.error "AttributeError"
      | some t => Except.ok (row ++ "sr=" ++ optStr p.page_special_user ++ "|sd=" ++
          format_time t ++ "|si=" ++ optNatStr p.page_special_oldid ++ "|")
    else Except.ok row : Except String String) with
  | Except.error e => Except.error e
  | Except.ok row2 =>
    let row3 := if pyTruthyStrOpt p.page_notes then row2 ++ "n=1" ++ optStr p.page_notes
      else row2
    Except.ok ("\x7b\x7b" ++ row3 ++ "\x7d\x7d")

/-- SELECT * FROM page JOIN row ON page_id = row_id WHERE row_chart = ?, in
the page-major order the cursor returns. -/
def join_by_chart (st : Store) (cid : Nat) : List (PageRow × RowEntry) :=
  st.pages.flatMap (fun p =>
    (st.rows.filter (fun r => r.row_id == p.page_id && r.row_chart == cid)).map
      (fun r => (p, r)))

/-- `compile_chart`: header (with the special title appended when truthy),
one row per joined record, and the footer, each on its own line. -/
def compile_chart (st : Store) (c : Chart) : Except String String := do
  let chart0 := tl_header ++ "|" ++ c.chart_title
  let chart1 := if pyTruthyStrOpt c.special_title then chart0 ++ "|" ++ optStr c.special_title
    else chart0
  let chart2 := "\x7b\x7b" ++ chart1 ++ "\x7d\x7d"
  let chart3 ← (join_by_chart st c.chart_id).foldlM (fun acc pr => do
      let r ← compile_chart_row pr.1
      pure (acc ++ ("\n" ++ r))) chart2
  pure (chart3 ++ ("\n\x7b\x7b" ++ tl_footer ++ "\x7d\x7d"))

/-- `compile_charts`: every catalog chart in order, each block followed by a
newline, then the final newline sliced off. -/
def compile_charts (catalog : List Chart) (st : Store) : Except String String := do
  let stats ← catalog.foldlM (fun acc c => do
      let ch ← compile_chart st c
      pure (acc ++ (ch ++ "\n"))) ""
  pure (pyDropLast stats)

/-- The claim's joining discipline: lines and blocks joined by single
newlines with no trailing newline. -/
def joinLines : List String → String
  | [] => ""
  | [b] => b
  | b :: rest => b ++ "\n" ++ joinLines rest

/-- Spec-side rendering of one row, following the claim's field list (the
special triple only on a truthy special user, the notes flag and literal
text only on truthy notes); total, since an unrendered special time is
immaterial. -/
def row_spec (p : PageRow) : String :=
  let row := tl_row ++ "|s=" ++ optStr p.page_status ++ "|t=" ++ p.page_title ++ "|h=" ++
      p.page_short ++ "|z=" ++ toString p.page_size ++ "|" ++
      "cr=" ++ p.page_create_user ++ "|cd=" ++ format_time p.page_create_time ++ "|ci=" ++
      toString p.page_create_oldid ++ "|" ++
      "mr=" ++ p.page_modify_user ++ "|md=" ++ format_time p.page_modify_time ++ "|mi=" ++
      toString p.page_modify_oldid ++ "|"
  let row2 := if pyTruthyStrOpt p.page_special_user then
      row ++ "sr=" ++ optStr p.page_special_user ++ "|sd=" ++
        (match p.page_special_time with
         | some t => format_time t
         | none => "") ++ "|si=" ++ optNatStr p.page_special_oldid ++ "|"
    else row
  let row3 := if pyTruthyStrOpt p.page_notes then row2 ++ "n=1" ++ optStr p.page_notes
    else row2
  "\x7b\x7b" ++ row3 ++ "\x7d\x7d"

/-- Spec-side header block for one chart (special title when truthy, as the
implementation reads it). -/
def header_spec (c : Chart) : String :=
  let chart0 := tl_header ++ "|" ++ c.chart_title
  let chart1 := if pyTruthyStrOpt c.special_title then chart0 ++ "|" ++ optStr c.special_title
    else chart0
  "\x7b\x7b" ++ chart1 ++ "\x7d\x7d"

/-- The footer block. -/
def footer_str : String := "\x7b\x7b" ++ tl_footer ++ "\x7d\x7d"

/-- Spec-side block for one chart: header, matching rows in store order,
footer, joined by single newlines. -/
def block_spec (st : Store) (c : Chart) : String :=
  joinLines (header_spec c ::
    ((join_by_chart st c.chart_id).map (fun pr => row_spec pr.1) ++ [footer_str]))

/-- Spec-side payload: all chart blocks in catalog order joined by single
newlines, no trailing newline. -/
def payload_spec (catalog : List Chart) (st : Store) : String :=
  joinLines (catalog.map (block_spec st))

/-- Header block exactly as claim C10 words it: the special title appended
whenever it is non-null (even when empty). -/
def header_claim (c : Chart) : String :=
  let chart0 := tl_header ++ "|" ++ c.chart_title
  let chart1 := if c.special_title.isSome then chart0 ++ "|" ++ optStr c.special_title
    else chart0
  "\x7b\x7b" ++ chart1 ++ "\x7d\x7d"

/-- Block built with the claim's literal header reading. -/
def block_claim (st : Store) (c : Chart) : String :=
  joinLines (header_claim c ::
    ((join_by_chart st c.chart_id).map (fun pr => row_spec pr.1) ++ [footer_str]))

/-- Payload built with the claim's literal header reading. -/
def payload_claim (catalog : List Chart) (st : Store) : String :=
  joinLines (catalog.map (block_claim st))

/-- Rows as glued by the source's accumulation: each row string preceded by
its newline. -/
def glueRows : List String → String
  | [] => ""
  | r :: rest => ("\n" ++ r) ++ glueRows rest

/-- Blocks as glued by the source's accumulation: each block followed by
its newline. -/
def glueBlocks : List String → String
  | [] => ""
  | b :: rest => (b ++ "\n") ++ glueBlocks rest

/-- A successful row rendering agrees with the spec-side row. -/
theorem compile_chart_row_ok (p : PageRow) (r : String)
    (h : compile_chart_row p = Except.ok r) : r = row_spec p := by
  by_cases hs : pyTruthyStrOpt p.page_special_user = true
  · cases ht : p.page_special_time with
    | none => simp [compile_chart_row, hs, ht] at h
    | some t =>
        simp [compile_chart_row, hs, ht] at h
        simp [row_spec, hs, ht, ← h]
  · simp [compile_chart_row, hs] at h
    simp [row_spec, hs, ← h]

/-- The row fold of `compile_chart` accumulates the glued spec rows. -/
theorem chart_rows_fold_ok (prs : List (PageRow × RowEntry)) :
    ∀ (acc out : String),
      List.foldlM (fun acc pr => do
          let r ← compile_chart_row pr.1
          pure (acc ++ ("\n" ++ r))) acc prs = Except.ok out →
      out = acc ++ glueRows (prs.map (fun pr => row_spec pr.1)) := by
  induction prs with
  | nil =>
      intro acc out h
      rw [List.foldlM_nil] at h
      injection h with h
      simp [glueRows, ← h, String.append_empty]
  | cons pr t ih =>
      intro acc out h
      rw [List.foldlM_cons] at h
      cases hr : compile_chart_row pr.1 with
      | error e => rw [hr] at h; simp [Bind.bind, Except.bind] at h
      | ok r =>
          rw [hr] at h
          have hstep : (do
              let r ← (Except.ok r : Except String String)
              pure (acc ++ ("\n" ++ r))) = (Except.ok (acc ++ ("\n" ++ r)) : Except String String) := rfl
          rw [hstep] at h
          have hbind : (Except.ok (acc ++ ("\n" ++ r)) >>= fun b =>
              List.foldlM (fun acc pr => do
                let r ← compile_chart_row pr.1
                pure (acc ++ ("\n" ++ r))) b t)
              = List.foldlM (fun acc pr => do
                  let r ← compile_chart_row pr.1
                  pure (acc ++ ("\n" ++ r))) (acc ++ ("\n" ++ r)) t := rfl
          rw [hbind] at h
          have hrec := ih (acc ++ ("\n" ++ r)) out h
          rw [hrec, compile_chart_row_ok pr.1 r hr]
          simp [glueRows, String.append_assoc]

/-- Gluing a head onto glued rows and a final line is a newline join. -/
theorem joinLines_glue (rs : List String) : ∀ hd f : String,
    (hd ++ glueRows rs) ++ ("\n" ++ f) = joinLines (hd :: (rs ++ [f])) := by
  induction rs with
  | nil =>
      intro hd f
      show (hd ++ "") ++ ("\n" ++ f) = joinLines [hd, f]
      rw [show joinLines [hd, f] = hd ++ "\n" ++ f from rfl, String.append_empty,
        String.append_assoc]
  | cons r t ih =>
      intro hd f
      show (hd ++ (("\n" ++ r) ++ glueRows t)) ++ ("\n" ++ f)
        = joinLines (hd :: r :: (t ++ [f]))
      rw [show joinLines (hd :: r :: (t ++ [f]))
          = hd ++ "\n" ++ joinLines (r :: (t ++ [f])) from rfl]
      rw [← ih r f]
      simp [String.append_assoc]

/-- The footer tail splits as a newline plus the footer block. -/
theorem footer_split : ("\n\x7b\x7b" ++ tl_footer ++ "\x7d\x7d" : String) = "\n" ++ footer_str := rfl

set_option maxHeartbeats 1000000 in
/-- A successful chart rendering agrees with the spec-side block. -/
theorem compile_chart_ok (st : Store) (c : Chart) (b : String)
    (h : compile_chart st c = Except.ok b) : b = block_spec st c := by
  have h' : (do
      let chart3 ← (join_by_chart st c.chart_id).foldlM (fun acc pr => do
          let r ← compile_chart_row pr.1
          pure (acc ++ ("\n" ++ r))) (header_spec c)
      pure (chart3 ++ ("\n\x7b\x7b" ++ tl_footer ++ "\x7d\x7d")) : Except String String)
      = Except.ok b := h
  cases hf : (join_by_chart st c.chart_id).foldlM (fun acc pr => do
      let r ← compile_chart_row pr.1
      pure (acc ++ ("\n" ++ r))) (header_spec c) with
  | error e => rw [hf] at h'; simp [Bind.bind, Except.bind] at h'
  | ok chart3 =>
      rw [hf] at h'
      have h2 : Except.ok (chart3 ++ ("\n\x7b\x7b" ++ tl_footer ++ "\x7d\x7d"))
          = Except.ok b := h'
      injection h2 with h3
      have hrows := chart_rows_fold_ok (join_by_chart st c.chart_id) (header_spec c) chart3 hf
      rw [← h3, hrows, footer_split]
      exact joinLines_glue ((join_by_chart st c.chart_id).map (fun pr => row_spec pr.1))
        (header_spec c) footer_str

/-- The chart fold of `compile_charts` accumulates the glued spec blocks. -/
theorem charts_fold_ok (st : Store) (cs : List Chart) :
    ∀ (acc out : String),
      List.foldlM (fun acc c => do
          let ch ← compile_chart st c
          pure (acc ++ (ch ++ "\n"))) acc cs = Except.ok out →
      out = acc ++ glueBlocks (cs.map (block_spec st)) := by
  induction cs with
  | nil =>
      intro acc out h
      rw [List.foldlM_nil] at h
      injection h with h
      simp [glueBlocks, ← h, String.append_empty]
  | cons c t ih =>
      intro acc out h
      rw [List.foldlM_cons] at h
      cases hc : compile_chart st c with
      | error e => rw [hc] at h; simp [Bind.bind, Except.bind] at h
      | ok blockb =>
          rw [hc] at h
          have h' : List.foldlM (fun acc c => do
              let ch ← compile_chart st c
              pure (acc ++ (ch ++ "\n"))) (acc ++ (blockb ++ "\n")) t = Except.ok out := h
          have hrec := ih (acc ++ (blockb ++ "\n")) out h'
          rw [hrec, compile_chart_ok st c blockb hc]
          simp [glueBlocks, String.append_assoc]

/-- Glued blocks of a nonempty list are the newline join plus a trailing
newline. -/
theorem glueBlocks_eq (bs : List String) (hne : bs ≠ []) :
    glueBlocks bs = joinLines bs ++ "\n" := by
  induction bs with
  | nil => cases hne rfl
  | cons b t ih =>
      cases t with
      | nil =>
          show (b ++ "\n") ++ "" = joinLines [b] ++ "\n"
          rw [String.append_empty]
          rfl
      | cons c t2 =>
          show (b ++ "\n") ++ glueBlocks (c :: t2) = joinLines (b :: c :: t2) ++ "\n"
          rw [ih (by simp)]
          rw [show joinLines (b :: c :: t2) = b ++ "\n" ++ joinLines (c :: t2) from rfl]
          simp [String.append_assoc]

/-- Dropping the final character after appending a newline. -/
theorem pyDropLast_append_newline (s : String) : pyDropLast (s ++ "\n") = s := by
  show String.mk ((s ++ "\n").data.dropLast) = s
  rw [String.data_append]
  show String.mk ((s.data ++ ['\n']).dropLast) = s
  rw [List.dropLast_concat]

/-- C10 (amended main theorem): a successful payload compilation is the
newline join, in catalog order, of the spec-side blocks (header with truthy
special title, matching rows in store order with the conditional special
and notes fields, footer), with no trailing newline. -/
theorem compile_charts_matches_payload (catalog : List Chart) (st : Store) (payload : String)
    (h : compile_charts catalog st = Except.ok payload) :
    payload = payload_spec catalog st := by
  unfold compile_charts at h
  cases hf : List.foldlM (fun acc c => do
      let ch ← compile_chart st c
      pure (acc ++ (ch ++ "\n"))) "" catalog with
  | error e => rw [hf] at h; simp [Bind.bind, Except.bind] at h
  | ok stats =>
      rw [hf] at h
      have h2 : Except.ok (pyDropLast stats) = Except.ok payload := h
      injection h2 with h3
      have hstats := charts_fold_ok st catalog "" stats hf
      rw [String.empty_append] at hstats
      by_cases hcat : catalog = []
      · subst hcat
        simp [glueBlocks] at hstats
        rw [← h3, hstats]
        rfl
      · have hne : (catalog.map (block_spec st)) ≠ [] := by
          simpa using hcat
        rw [glueBlocks_eq _ hne] at hstats
        rw [← h3, hstats, pyDropLast_append_newline]
        rfl

/-- Witness fixture rows for C10: two pending rows (the second with
notes) and one accepted row with a populated special triple. -/
def wPageA : PageRow :=
  ⟨1, some "pend", "Wikipedia:Articles for creation/Foo", "Foo", 120, none,
   "Alice", 0, 11, "Bob", 3600, 12, none, none, none⟩

/-- Second witness row, carrying notes. -/
def wPageB : PageRow :=
  ⟨2, some "pend", "Wikipedia:Articles for creation/Bar", "Bar", 80, some " with a note",
   "Carol", 86400, 21, "Dave", 90000, 22, none, none, none⟩

/-- Third witness row, terminal with special fields. -/
def wPageC : PageRow :=
  ⟨3, some "accept", "Queue", "Queue", 300, none,
   "Eve", 1000, 31, "Frank", 2000, 32, some "Grace", some 100000, some 33⟩

/-- Witness store for C10. -/
def wStoreC10 : Store := ⟨[wPageA, wPageB, wPageC], [⟨1, 1⟩, ⟨2, 1⟩, ⟨3, 4⟩]⟩

/-- Witness catalog for C10: one plain chart and one with a special
title. -/
def wCatC10 : List Chart :=
  [⟨1, "Pending submissions", none⟩, ⟨4, "Recently accepted", some "Accepted"⟩]

set_option maxRecDepth 40000 in
/-- Witness for C10: the compiled payload on the fixture equals the
spec-side join of blocks. -/
theorem compile_charts_matches_payload_witness :
    compile_charts wCatC10 wStoreC10 = Except.ok
      "\x7b\x7bAFC statistics/header|Pending submissions\x7d\x7d\n\x7b\x7bAFC statistics/row|s=pend|t=Wikipedia:Articles for creation/Foo|h=Foo|z=120|cr=Alice|cd=00:00, 01 January 1970|ci=11|mr=Bob|md=01:00, 01 January 1970|mi=12|\x7d\x7d\n\x7b\x7bAFC statistics/row|s=pend|t=Wikipedia:Articles for creation/Bar|h=Bar|z=80|cr=Carol|cd=00:00, 02 January 1970|ci=21|mr=Dave|md=01:00, 02 January 1970|mi=22|n=1 with a note\x7d\x7d\n\x7b\x7bAFC statistics/footer\x7d\x7d\n\x7b\x7bAFC statistics/header|Recently accepted|Accepted\x7d\x7d\n\x7b\x7bAFC statistics/row|s=accept|t=Queue|h=Queue|z=300|cr=Eve|cd=00:16, 01 January 1970|ci=31|mr=Frank|md=00:33, 01 January 1970|mi=32|sr=Grace|sd=03:46, 02 January 1970|si=33|\x7d\x7d\n\x7b\x7bAFC statistics/footer\x7d\x7d"
    ∧ "\x7b\x7bAFC statistics/header|Pending submissions\x7d\x7d\n\x7b\x7bAFC statistics/row|s=pend|t=Wikipedia:Articles for creation/Foo|h=Foo|z=120|cr=Alice|cd=00:00, 01 January 1970|ci=11|mr=Bob|md=01:00, 01 January 1970|mi=12|\x7d\x7d\n\x7b\x7bAFC statistics/row|s=pend|t=Wikipedia:Articles for creation/Bar|h=Bar|z=80|cr=Carol|cd=00:00, 02 January 1970|ci=21|mr=Dave|md=01:00, 02 January 1970|mi=22|n=1 with a note\x7d\x7d\n\x7b\x7bAFC statistics/footer\x7d\x7d\n\x7b\x7bAFC statistics/header|Recently accepted|Accepted\x7d\x7d\n\x7b\x7bAFC statistics/row|s=accept|t=Queue|h=Queue|z=300|cr=Eve|cd=00:16, 01 January 1970|ci=31|mr=Frank|md=00:33, 01 January 1970|mi=32|sr=Grace|sd=03:46, 02 January 1970|si=33|\x7d\x7d\n\x7b\x7bAFC statistics/footer\x7d\x7d"
      = payload_spec wCatC10 wStoreC10 :=
  ⟨rfl, compile_charts_matches_payload wCatC10 wStoreC10 _ rfl⟩

/-- Counterexample catalog for C10: a chart whose special title is non-null
but empty. -/
def cexCatC10 : List Chart := [⟨1, "T", some ""⟩]

set_option maxRecDepth 40000 in
/-- C10 counterexample: on a non-null empty special title the code omits
the special title from the header (Python truthiness), while the claim as
stated appends it whenever non-null, so the claimed payload differs from
the compiled one. -/
theorem compile_header_empty_special_counterexample :
    compile_charts cexCatC10 emptyStore
      = Except.ok "\x7b\x7bAFC statistics/header|T\x7d\x7d\n\x7b\x7bAFC statistics/footer\x7d\x7d"
    ∧ payload_claim cexCatC10 emptyStore
      ≠ "\x7b\x7bAFC statistics/header|T\x7d\x7d\n\x7b\x7bAFC statistics/footer\x7d\x7d" :=
  ⟨rfl, by decide⟩

/-- The page-record transformation a successful `update_page` run applies
to every record with the target page id: the four conditional group
writes, diffed against the fetched record `res`. -/
def upd_page_fn (title short : String) (size : Nat) (mu : String) (mt mi : Nat)
    (status : Option String) (notes : Option String) (res : PageRow) (p : PageRow) :
    PageRow :=
  let p1 := if title ≠ res.page_title then
      { p with page_title := title, page_short := short } else p
  let p2 := if mi ≠ res.page_modify_oldid then
      { p1 with page_size := size, page_modify_user := mu, page_modify_time := mt,
                page_modify_oldid := mi } else p1
  let p3 := if status ≠ res.page_status then
      (let pA := { p2 with page_status := status }
       if (none : Option Nat) ≠ res.page_special_oldid then
         { pA with page_special_user := none, page_special_time := none,
                   page_special_oldid := none }
       else pA)
    else p2
  if notes ≠ res.page_notes then { p3 with page_notes := notes } else p3

/-- The row-table transformation of a successful `update_page` run. -/
def upd_row_fn (status : Option String) (chart : Nat) (res : PageRow) (r : RowEntry) :
    RowEntry :=
  if status ≠ res.page_status then { r with row_chart := chart } else r

/-- A keyed write with identity components does nothing. -/
theorem map_pid_id (st : Store) (pid : Nat) :
    map_pid st pid (fun p => p) (fun r => r) = st := by
  cases st with
  | mk pages rows => simp [map_pid]

/-- Pointwise equal components give equal keyed writes. -/
theorem map_pid_congr (st : Store) (pid : Nat) (fP fP' : PageRow → PageRow)
    (fR fR' : RowEntry → RowEntry) (hp : ∀ p, fP p = fP' p) (hr : ∀ r, fR r = fR' r) :
    map_pid st pid fP fR = map_pid st pid fP' fR' := by
  unfold map_pid
  rw [funext hp, funext hr]

/-- A conditional keyed write folds into the transformation. -/
theorem ite_map_pid (c : Prop) [Decidable c] (st : Store) (pid : Nat)
    (fP : PageRow → PageRow) (fR : RowEntry → RowEntry) :
    (if c then map_pid st pid fP fR else st)
      = map_pid st pid (fun p => if c then fP p else p)
          (fun r => if c then fR r else r) := by
  by_cases h : c
  · simp only [if_pos h]
  · simp only [if_neg h]
    exact (map_pid_id st pid).symm

/-- Two keyed writes compose into one when the first preserves the keys. -/
theorem map_pid_comp (st : Store) (pid : Nat) (f1 f2 : PageRow → PageRow)
    (g1 g2 : RowEntry → RowEntry) (h1 : ∀ p, (f1 p).page_id = p.page_id)
    (hg1 : ∀ r, (g1 r).row_id = r.row_id) :
    map_pid (map_pid st pid f1 g1) pid f2 g2
      = map_pid st pid (fun p => f2 (f1 p)) (fun r => g2 (g1 r)) := by
  unfold map_pid
  simp only [List.map_map, Store.mk.injEq]
  constructor
  · have : ((fun p => if p.page_id == pid then f2 p else p) ∘
        (fun p => if p.page_id == pid then f1 p else p))
        = (fun p => if p.page_id == pid then f2 (f1 p) else p) := by
      funext p
      by_cases h : (p.page_id == pid) = true <;>
        simp [Function.comp, h, h1]
    rw [this]
  · have : ((fun r => if r.row_id == pid then g2 r else r) ∘
        (fun r => if r.row_id == pid then g1 r else r))
        = (fun r => if r.row_id == pid then g2 (g1 r) else r) := by
      funext r
      by_cases h : (r.row_id == pid) = true <;>
        simp [Function.comp, h, hg1]
    rw [this]

/-- A pointwise-identity map leaves the list unchanged. -/
theorem map_eq_self_of_ptwise {α : Type} (l : List α) (f : α → α)
    (h : ∀ a ∈ l, f a = a) : l = l.map f := by
  induction l with
  | nil => rfl
  | cons a t ih =>
      simp only [List.map_cons]
      rw [h a (by simp), ← ih (fun x hx => h x (by simp [hx]))]

/-- The conditional untrack at the top of `update_page` can only return the
store unchanged. -/
theorem untrack_if_ok (c : Bool) (st st0 : Store) (t0 : String)
    (h : (if c = true then untrack_page st none (some t0) else Except.ok st)
      = Except.ok st0) :
    st0 = st := by
  by_cases hc : c = true
  · rw [if_pos hc] at h
    unfold untrack_page at h
    by_cases ht : pyTruthyStrOpt (some t0) = true
    · simp [pyTruthyNatOpt, ht] at h
    · simp [pyTruthyNatOpt, ht] at h
      exact h.symm
  · rw [if_neg hc] at h
    injection h with h
    exact h.symm

/-- Characterization of a successful `update_page` run: the revision
lookup succeeded, the joined fetch was nonempty, and the resulting store is
the fetched-record-diffed keyed write applied to every record with the
page's id. -/
theorem update_page_ok_shape (w : World) (st : Store) (t : String) (st' : Store)
    (log : List String) (h : update_page w st t = Except.ok (st', log)) :
    ∃ mv res rest,
      get_modify w (w.get_page t).pageid = Except.ok mv ∧
      join_by_pid st (w.get_page t).pageid = res :: rest ∧
      st' = map_pid st (w.get_page t).pageid
        (upd_page_fn (w.get_page t).title (get_short_title (w.get_page t).title)
          (w.get_page t).content.length mv.1 mv.2.1 mv.2.2
          (get_status_and_chart (w.get_page t)).1 (get_notes (w.get_page t)) res.1)
        (upd_row_fn (get_status_and_chart (w.get_page t)).1
          (get_status_and_chart (w.get_page t)).2 res.1) := by
  unfold update_page at h
  dsimp only at h
  split at h
  · cases h
  next st0 heq =>
    have hst0 : st0 = st := untrack_if_ok _ st st0 t heq
    subst hst0
    split at h
    · cases h
    next m heqm =>
      split at h
      · cases h
      next result rr rest heqj =>
        obtain ⟨pgs, rws⟩ := st0
        refine ⟨m, (result, rr), rest, heqm, heqj, ?_⟩
        injection h.symm with hpair
        refine Eq.trans (congrArg Prod.fst hpair) ?_
        simp only [get_special, get_notes]
        by_cases hb1 : (w.get_page t).title ≠ result.page_title <;>
          by_cases hb2 : m.2.2 ≠ result.page_modify_oldid <;>
          by_cases hb3 : (get_status_and_chart (w.get_page t)).1 ≠ result.page_status <;>
          by_cases hb3s : (none : Option Nat) ≠ result.page_special_oldid <;>
          by_cases hb4 : (none : Option String) ≠ result.page_notes
        all_goals
          try simp only [ne_eq, hb1, hb2, hb3, hb3s, hb4, ite_true, ite_false, not_true,
            not_false_iff, not_not]
        all_goals
          try simp only [set_title_short, set_modify, set_status_chart, set_special,
            set_notes, map_pid, List.map_map, Store.mk.injEq]
        all_goals
          constructor <;>
            first
            | (apply List.map_congr_left
               intro x hx
               by_cases hk : (x.page_id == (w.get_page t).pageid) = true <;>
                 simp [Function.comp, hk, upd_page_fn, get_special, get_notes,
                   hb1, hb2, hb3, hb3s, hb4])
            | (apply map_eq_self_of_ptwise
               intro x hx
               by_cases hk : (x.page_id == (w.get_page t).pageid) = true <;>
                 simp [Function.comp, hk, upd_page_fn, get_special, get_notes,
                   hb1, hb2, hb3, hb3s, hb4])
            | (apply List.map_congr_left
               intro x hx
               by_cases hk : (x.row_id == (w.get_page t).pageid) = true <;>
                 simp [Function.comp, hk, upd_row_fn, get_special, get_notes,
                   hb1, hb2, hb3, hb3s, hb4])
            | (apply map_eq_self_of_ptwise
               intro x hx
               by_cases hk : (x.row_id == (w.get_page t).pageid) = true <;>
                 simp [Function.comp, hk, upd_row_fn, get_special, get_notes,
                   hb1, hb2, hb3, hb3s, hb4])

/-- Every joined pair consists of a page record with the key page id and a
row-table entry with the same key. -/
theorem mem_join_by_pid (st : Store) (pid : Nat) (pr : PageRow × RowEntry)
    (h : pr ∈ join_by_pid st pid) :
    pr.1 ∈ st.pages ∧ pr.1.page_id = pid ∧ pr.2 ∈ st.rows ∧ pr.2.row_id = pid := by
  unfold join_by_pid at h
  rcases List.mem_flatMap.1 h with ⟨p, hp, hin⟩
  rcases List.mem_map.1 hin with ⟨r, hr, hpr⟩
  rcases List.mem_filter.1 hp with ⟨hpmem, hpk⟩
  rcases List.mem_filter.1 hr with ⟨hrmem, hrk⟩
  have hpk' : p.page_id = pid := by simpa using hpk
  have hrk' : r.row_id = p.page_id := by simpa using hrk
  subst hpr
  exact ⟨hpmem, hpk', hrmem, by rw [hrk', hpk']⟩

/-- A page record and a row entry sharing the key id appear in the join. -/
theorem join_by_pid_mem_intro (st : Store) (pid : Nat) (p : PageRow) (r : RowEntry)
    (hp : p ∈ st.pages) (hpk : p.page_id = pid) (hr : r ∈ st.rows)
    (hrk : r.row_id = pid) : (p, r) ∈ join_by_pid st pid := by
  unfold join_by_pid
  refine List.mem_flatMap.2 ⟨p, List.mem_filter.2 ⟨hp, by simp [hpk]⟩, ?_⟩
  exact List.mem_map.2 ⟨r, List.mem_filter.2 ⟨hr, by simp [hrk, hpk]⟩, rfl⟩

/-- Distinct page ids identify records uniquely. -/
theorem nodup_pid_unique (l : List PageRow)
    (h : (l.map (fun p => p.page_id)).Nodup) (p q : PageRow) (hp : p ∈ l)
    (hq : q ∈ l) (hpq : p.page_id = q.page_id) : p = q :=
  List.inj_on_of_nodup_map h hp hq hpq

/-- The update transformation never changes the page id. -/
theorem upd_page_fn_page_id (title short : String) (size : Nat) (mu : String)
    (mt mi : Nat) (status : Option String) (notes : Option String) (res p : PageRow) :
    (upd_page_fn title short size mu mt mi status notes res p).page_id = p.page_id := by
  unfold upd_page_fn
  split_ifs <;> rfl

/-- The row transformation never changes the row id. -/
theorem upd_row_fn_row_id (status : Option String) (chart : Nat) (res : PageRow)
    (r : RowEntry) :
    (upd_row_fn status chart res r).row_id = r.row_id := by
  unfold upd_row_fn
  split_ifs <;> rfl

/-- Applying the update transformation to the fetched record itself leaves
each diffed column holding the freshly computed value. -/
theorem upd_page_fn_self (title short : String) (size : Nat) (mu : String)
    (mt mi : Nat) (status : Option String) (notes : Option String) (res : PageRow) :
    (upd_page_fn title short size mu mt mi status notes res res).page_title = title
    ∧ (upd_page_fn title short size mu mt mi status notes res res).page_modify_oldid = mi
    ∧ (upd_page_fn title short size mu mt mi status notes res res).page_status = status
    ∧ (upd_page_fn title short size mu mt mi status notes res res).page_notes = notes := by
  unfold upd_page_fn
  by_cases hb1 : title ≠ res.page_title <;>
    by_cases hb2 : mi ≠ res.page_modify_oldid <;>
    by_cases hb3 : status ≠ res.page_status <;>
    by_cases hb3s : (none : Option Nat) ≠ res.page_special_oldid <;>
    by_cases hb4 : notes ≠ res.page_notes <;>
    simp [hb1, hb2, hb3, hb3s, hb4] <;>
    simp only [not_not, ne_eq] at hb1 hb2 hb3 hb3s hb4 <;>
    simp [hb1, hb2, hb3, hb3s, hb4]

/-- A successful `update_page` run implies the conditional untrack cannot
raise: when the status is falsy the title argument must be falsy too. -/
theorem update_page_ok_untrack_cond (w : World) (st : Store) (t : String)
    (st' : Store) (log : List String)
    (h : update_page w st t = Except.ok (st', log)) :
    (!pyTruthyStrOpt (get_status_and_chart (w.get_page t)).1) = true →
      pyTruthyStrOpt (some t) = false := by
  intro hc
  unfold update_page at h
  dsimp only at h
  rw [if_pos hc] at h
  unfold untrack_page at h
  by_cases ht : pyTruthyStrOpt (some t) = true
  · rw [if_neg (by simp [pyTruthyNatOpt]), if_pos ht] at h
    simp at h
  · simp only [Bool.not_eq_true] at ht
    exact ht

/-- C7: on a store satisfying the page-table primary key (pairwise
distinct page ids), a second `update_page` call with no intervening
external change issues no writes at all: it returns the same store with an
empty write log, because every diffed column now equals the freshly
computed value. -/
theorem update_page_idempotent (w : World) (st : Store) (t : String)
    (st' : Store) (log : List String)
    (hnd : (st.pages.map (fun p => p.page_id)).Nodup)
    (h : update_page w st t = Except.ok (st', log)) :
    update_page w st' t = Except.ok (st', []) := by
  obtain ⟨m, res, rest, heqm, heqj, hst'⟩ := update_page_ok_shape w st t st' log h
  have hcond := update_page_ok_untrack_cond w st t st' log h
  have hresmem := mem_join_by_pid st (w.get_page t).pageid res
    (by rw [heqj]; exact List.mem_cons_self _ _)
  obtain ⟨hres1mem, hres1pid, hres2mem, hres2pid⟩ := hresmem
  have hFmem : upd_page_fn (w.get_page t).title (get_short_title (w.get_page t).title)
      (w.get_page t).content.length m.1 m.2.1 m.2.2
      (get_status_and_chart (w.get_page t)).1 (get_notes (w.get_page t)) res.1 res.1
      ∈ st'.pages := by
    rw [hst']
    show _ ∈ st.pages.map fun p => if (p.page_id == (w.get_page t).pageid) = true then
      upd_page_fn _ _ _ _ _ _ _ _ res.1 p else p
    exact List.mem_map.2 ⟨res.1, hres1mem, by simp [hres1pid]⟩
  have hGmem : upd_row_fn (get_status_and_chart (w.get_page t)).1
      (get_status_and_chart (w.get_page t)).2 res.1 res.2 ∈ st'.rows := by
    rw [hst']
    show _ ∈ st.rows.map fun r => if (r.row_id == (w.get_page t).pageid) = true then
      upd_row_fn _ _ res.1 r else r
    exact List.mem_map.2 ⟨res.2, hres2mem, by simp [hres2pid]⟩
  have hjoin2mem : (upd_page_fn (w.get_page t).title (get_short_title (w.get_page t).title)
      (w.get_page t).content.length m.1 m.2.1 m.2.2
      (get_status_and_chart (w.get_page t)).1 (get_notes (w.get_page t)) res.1 res.1,
      upd_row_fn (get_status_and_chart (w.get_page t)).1
        (get_status_and_chart (w.get_page t)).2 res.1 res.2)
      ∈ join_by_pid st' (w.get_page t).pageid :=
    join_by_pid_mem_intro st' (w.get_page t).pageid _ _ hFmem
      (by rw [upd_page_fn_page_id]; exact hres1pid) hGmem
      (by rw [upd_row_fn_row_id]; exact hres2pid)
  cases hj2 : join_by_pid st' (w.get_page t).pageid with
  | nil => exact absurd hj2 (List.ne_nil_of_mem hjoin2mem)
  | cons hd tl =>
    have hhdmem := mem_join_by_pid st' (w.get_page t).pageid hd
      (by rw [hj2]; exact List.mem_cons_self _ _)
    obtain ⟨hhd1mem, hhd1pid, -, -⟩ := hhdmem
    have hex : ∃ q ∈ st.pages, hd.1 = if (q.page_id == (w.get_page t).pageid) = true then
        upd_page_fn (w.get_page t).title (get_short_title (w.get_page t).title)
          (w.get_page t).content.length m.1 m.2.1 m.2.2
          (get_status_and_chart (w.get_page t)).1 (get_notes (w.get_page t)) res.1 q
        else q := by
      rw [hst'] at hhd1mem
      have hm : hd.1 ∈ st.pages.map fun p =>
          if (p.page_id == (w.get_page t).pageid) = true then
            upd_page_fn (w.get_page t).title (get_short_title (w.get_page t).title)
              (w.get_page t).content.length m.1 m.2.1 m.2.2
              (get_status_and_chart (w.get_page t)).1 (get_notes (w.get_page t)) res.1 p
          else p := hhd1mem
      rcases List.mem_map.1 hm with ⟨q, hq, hq2⟩
      exact ⟨q, hq, hq2.symm⟩
    obtain ⟨q, hqmem, hq⟩ := hex
    have hqpid : q.page_id = (w.get_page t).pageid := by
      by_cases hk : (q.page_id == (w.get_page t).pageid) = true
      · simpa using hk
      · rw [hq, if_neg hk] at hhd1pid
        exact hhd1pid
    have hqres : q = res.1 :=
      nodup_pid_unique st.pages hnd q res.1 hqmem hres1mem
        (hqpid.trans hres1pid.symm)
    have hhd1 : hd.1 = upd_page_fn (w.get_page t).title
        (get_short_title (w.get_page t).title) (w.get_page t).content.length
        m.1 m.2.1 m.2.2 (get_status_and_chart (w.get_page t)).1
        (get_notes (w.get_page t)) res.1 res.1 := by
      rw [hq, if_pos (by simp [hqpid]), hqres]
    obtain ⟨hT, hM, hS, hN⟩ := upd_page_fn_self (w.get_page t).title
      (get_short_title (w.get_page t).title) (w.get_page t).content.length
      m.1 m.2.1 m.2.2 (get_status_and_chart (w.get_page t)).1
      (get_notes (w.get_page t)) res.1
    have hfirst : (if (!pyTruthyStrOpt (get_status_and_chart (w.get_page t)).1) = true
        then untrack_page st' none (some t) else Except.ok st') = Except.ok st' := by
      by_cases hc : (!pyTruthyStrOpt (get_status_and_chart (w.get_page t)).1) = true
      · rw [if_pos hc]
        unfold untrack_page
        rw [if_neg (by simp [pyTruthyNatOpt]), if_neg (by simp [hcond hc])]
      · rw [if_neg hc]
    unfold update_page
    dsimp only
    rw [hfirst]
    dsimp only
    rw [heqm]
    dsimp only
    rw [hj2]
    dsimp only
    rw [hhd1, hT, hM, hS, hN]
    simp

/-- Fixture world for the C7 witness: title T is a pending submission
whose replica latest revision is 6. -/
def wC7 : World :=
  ⟨fun t => ⟨1, t, pendingContent, false, 0⟩,
   fun _ => some 6, fun _ => some 6, fun _ => some 1,
   fun _ => "editor", fun _ => 3600, [], [], 0⟩

/-- Fixture store for the C7 witness: T tracked with a stale modify id. -/
def stC7 : Store := ⟨[samplePage 1 (some "pend") "T" 5], [⟨1, 1⟩]⟩

/-- The store after the first update: the modify group was rewritten. -/
def stC7' : Store :=
  ⟨[⟨1, some "pend", "T", "T", 31, none, "creator", 0, 1, "editor", 3600, 6,
     none, none, none⟩], [⟨1, 1⟩]⟩

/-- Witness for C7: the first call writes the modify group, the second
call writes nothing. -/
theorem update_page_idempotent_witness :
    update_page wC7 stC7 "T" = Except.ok (stC7', ["modify"])
    ∧ update_page wC7 stC7' "T" = Except.ok (stC7', []) :=
  ⟨rfl, update_page_idempotent wC7 stC7 "T" stC7' ["modify"] (by decide) rfl⟩

/-- All special columns of every record are NULL. -/
def allSpecialNull (st : Store) : Bool :=
  st.pages.all fun p =>
    p.page_special_user == none && p.page_special_time == none &&
      p.page_special_oldid == none

/-- The biconditional of claim C9: each special column is non-null exactly
when the record sits in a terminal chart bucket. -/
def special_iff_terminal (st : Store) : Bool :=
  st.pages.all fun p =>
    (p.page_special_user.isSome == terminalRowFor st p.page_id) &&
      (p.page_special_time.isSome == terminalRowFor st p.page_id) &&
      (p.page_special_oldid.isSome == terminalRowFor st p.page_id)

/-- A successful untrack call leaves the store unchanged. -/
theorem untrack_page_ok_eq (st : Store) (a : Option Nat) (b : Option String)
    (st' : Store) (h : untrack_page st a b = Except.ok st') : st' = st := by
  unfold untrack_page at h
  split_ifs at h
  injection h with h
  exact h.symm

/-- A successful track call leaves the store unchanged (the insert path
always raises inside the creation lookup). -/
theorem track_page_ok_eq (w : World) (st : Store) (t : String)
    (pr : Store × List String) (h : track_page w st t = Except.ok pr) :
    pr = (st, []) := by
  unfold track_page at h
  dsimp only at h
  split_ifs at h
  · injection h with h
    exact h.symm
  · simp [get_create] at h

/-- The update transformation either keeps or nulls each special column. -/
theorem upd_page_fn_special (title short : String) (size : Nat) (mu : String)
    (mt mi : Nat) (status : Option String) (notes : Option String) (res p : PageRow) :
    ((upd_page_fn title short size mu mt mi status notes res p).page_special_user
        = p.page_special_user
      ∧ (upd_page_fn title short size mu mt mi status notes res p).page_special_time
        = p.page_special_time
      ∧ (upd_page_fn title short size mu mt mi status notes res p).page_special_oldid
        = p.page_special_oldid)
    ∨ ((upd_page_fn title short size mu mt mi status notes res p).page_special_user = none
      ∧ (upd_page_fn title short size mu mt mi status notes res p).page_special_time = none
      ∧ (upd_page_fn title short size mu mt mi status notes res p).page_special_oldid
        = none) := by
  unfold upd_page_fn
  split_ifs <;> simp

/-- A successful `update_page` run preserves all-null special columns. -/
theorem update_page_allnull (w : World) (st : Store) (t : String)
    (pr : Store × List String) (hn : allSpecialNull st = true)
    (h : update_page w st t = Except.ok pr) : allSpecialNull pr.1 = true := by
  obtain ⟨m, res, rest, heqm, heqj, hst'⟩ :=
    update_page_ok_shape w st t pr.1 pr.2 h
  rw [hst']
  simp only [allSpecialNull, map_pid, List.all_eq_true] at hn ⊢
  intro p' hp'
  rcases List.mem_map.1 hp' with ⟨q, hq, hq2⟩
  subst hq2
  by_cases hk : (q.page_id == (w.get_page t).pageid) = true
  · rw [if_pos hk]
    rcases upd_page_fn_special (w.get_page t).title
        (get_short_title (w.get_page t).title) (w.get_page t).content.length
        m.1 m.2.1 m.2.2 (get_status_and_chart (w.get_page t)).1
        (get_notes (w.get_page t)) res.1 q with hkeep | hnull
    · rcases hkeep with ⟨h1, h2, h3⟩
      have := hn q hq
      simp [h1, h2, h3]
      simp at this
      exact this
    · rcases hnull with ⟨h1, h2, h3⟩
      simp [h1, h2, h3]
  · rw [if_neg hk]
    exact hn q hq

/-- The move re-point preserves all-null special columns. -/
theorem set_title_oldid_allnull (st : Store) (src dst : String) (oldid : Nat)
    (hn : allSpecialNull st = true) :
    allSpecialNull (set_title_oldid st src dst oldid) = true := by
  simp only [allSpecialNull, set_title_oldid, List.all_eq_true] at hn ⊢
  intro p' hp'
  rcases List.mem_map.1 hp' with ⟨q, hq, hq2⟩
  subst hq2
  by_cases hk : (q.page_title == src) = true <;> simp [hk] <;> simpa using hn q hq

/-- A successful `sync_page` preserves all-null special columns. -/
theorem sync_page_allnull (w : World) (st : Store) (t : String) (st' : Store)
    (hn : allSpecialNull st = true) (h : sync_page w st t = Except.ok st') :
    allSpecialNull st' = true := by
  unfold sync_page at h
  split_ifs at h
  · cases htr : track_page w st t with
    | error e => rw [htr] at h; cases h
    | ok pr =>
        rw [htr] at h
        injection h with h
        rw [← h, track_page_ok_eq w st t pr htr]
        exact hn
  · cases hup : update_page w st t with
    | error e => rw [hup] at h; cases h
    | ok pr =>
        rw [hup] at h
        injection h with h
        rw [← h]
        exact update_page_allnull w st t pr hn hup

/-- A successful `process_edit` preserves all-null special columns. -/
theorem process_edit_allnull (w : World) (st : Store) (t : String) (st' : Store)
    (hn : allSpecialNull st = true) (h : process_edit w st t = Except.ok st') :
    allSpecialNull st' = true := by
  unfold process_edit at h
  split_ifs at h
  · injection h with h
    rw [← h]
    exact hn
  · exact sync_page_allnull w st t st' hn h

/-- A successful `process_delete` preserves all-null special columns. -/
theorem process_delete_allnull (w : World) (st : Store) (t : String) (st' : Store)
    (hn : allSpecialNull st = true) (h : process_delete w st t = Except.ok st') :
    allSpecialNull st' = true := by
  unfold process_delete at h
  split at h
  · exact sync_page_allnull w st t st' hn h
  · cases h

/-- A successful `process_move` preserves all-null special columns. -/
theorem process_move_allnull (w : World) (st : Store) (src dst : String) (st' : Store)
    (hn : allSpecialNull st = true) (h : process_move w st src dst = Except.ok st') :
    allSpecialNull st' = true := by
  unfold process_move at h
  dsimp only at h
  split_ifs at h
  · cases htr : track_page w st dst with
    | error e => rw [htr] at h; cases h
    | ok pr =>
        rw [htr] at h
        injection h with h
        rw [← h, track_page_ok_eq w st dst pr htr]
        exact hn
  · split at h
    · injection h with h
      rw [← h]
      exact set_title_oldid_allnull st src dst _ hn
    · cases h
  · split at h
    · injection h with h
      rw [← h]
      exact set_title_oldid_allnull st src dst _ hn
    · cases h

/-- Sweep pass 1 can only return the store unchanged. -/
theorem sync_deleted_aux_ok_eq (w : World) : ∀ (l : List PageRow) (st st' : Store),
    sync_deleted_aux w l st = Except.ok st' → st' = st := by
  intro l
  induction l with
  | nil =>
      intro st st' h
      injection h with h
      exact h.symm
  | cons p rest ih =>
      intro st st' h
      unfold sync_deleted_aux at h
      split at h
      · exact ih st st' h
      · cases h

/-- Sweep pass 2 preserves all-null special columns. -/
theorem sync_oldids_aux_allnull (w : World) : ∀ (l : List (Nat × String × Nat))
    (st st' : Store), allSpecialNull st = true →
    sync_oldids_aux w l st = Except.ok st' → allSpecialNull st' = true := by
  intro l
  induction l with
  | nil =>
      intro st st' hn h
      injection h with h
      rw [← h]
      exact hn
  | cons e rest ih =>
      intro st st' hn h
      unfold sync_oldids_aux at h
      split at h
      · split at h
        · cases h
        next st2 hu =>
          exact ih st2 st' (by rw [untrack_page_ok_eq _ _ _ _ hu]; exact hn) h
      · split_ifs at h
        · split at h
          · cases h
          next pr hupd =>
            exact ih pr.1 st' (update_page_allnull w st _ pr hn hupd) h
        · exact ih st st' hn h

/-- Sweep pass 3 can only return the store unchanged. -/
theorem sync_pending_aux_ok_eq (w : World) (tracked : List String) :
    ∀ (l : List String) (st st' : Store),
    sync_pending_aux w tracked l st = Except.ok st' → st' = st := by
  intro l
  induction l with
  | nil =>
      intro st st' h
      injection h with h
      exact h.symm
  | cons p rest ih =>
      intro st st' h
      unfold sync_pending_aux at h
      split_ifs at h
      · exact ih st st' h
      · exact ih st st' h
      · split at h
        · cases h
        next pr htr =>
          have := track_page_ok_eq w st p pr htr
          rw [ih pr.1 st' h, this]

/-- The age-out pass preserves all-null special columns. -/
theorem sync_old_allnull (st : Store) (now : Nat) (hn : allSpecialNull st = true) :
    allSpecialNull (sync_old st now) = true := by
  simp only [allSpecialNull, sync_old, List.all_eq_true] at hn ⊢
  intro p hp
  exact hn p (List.mem_filter.1 hp).1

/-- A successful full sweep preserves all-null special columns. -/
theorem sync_allnull (w : World) (st st' : Store) (hn : allSpecialNull st = true)
    (h : sync w st = Except.ok st') : allSpecialNull st' = true := by
  unfold sync at h
  split at h
  · cases h
  next st1 h1 =>
    split at h
    · cases h
    next st2 h2 =>
      split at h
      · cases h
      next st3 h3 =>
        injection h with h
        rw [← h]
        have e1 : st1 = st := sync_deleted_aux_ok_eq w st.pages st st1 h1
        have e2 : allSpecialNull st2 = true :=
          sync_oldids_aux_allnull w _ st1 st2 (by rw [e1]; exact hn) h2
        have e3 : st3 = st2 := sync_pending_aux_ok_eq w _ _ st2 st3 h3
        rw [e3]
        exact sync_old_allnull st2 w.now e2

/-- C9 (amended main theorem): because `get_special` is a stub returning
nulls, every Sync Engine operation preserves all-null special columns, so
in every state reachable from an all-null store the special fields are
null; the direction "non-null implies terminal bucket" of the claimed
biconditional therefore holds vacuously, while the converse direction
fails (see the counterexample). -/
theorem special_fields_stay_null (w : World) (st st' : Store) (t src dst : String)
    (pr : Store × List String) (now : Nat) (hn : allSpecialNull st = true) :
    (update_page w st t = Except.ok pr → allSpecialNull pr.1 = true)
    ∧ (track_page w st t = Except.ok pr → allSpecialNull pr.1 = true)
    ∧ (process_edit w st t = Except.ok st' → allSpecialNull st' = true)
    ∧ (process_move w st src dst = Except.ok st' → allSpecialNull st' = true)
    ∧ (process_delete w st t = Except.ok st' → allSpecialNull st' = true)
    ∧ (sync w st = Except.ok st' → allSpecialNull st' = true)
    ∧ allSpecialNull (sync_old st now) = true := by
  refine ⟨fun h => update_page_allnull w st t pr hn h,
    fun h => ?_,
    fun h => process_edit_allnull w st t st' hn h,
    fun h => process_move_allnull w st src dst st' hn h,
    fun h => process_delete_allnull w st t st' hn h,
    fun h => sync_allnull w st st' hn h,
    sync_old_allnull st now hn⟩
  rw [track_page_ok_eq w st t pr h]
  exact hn

/-- Fixture world for C9: title T became a redirect into the main
namespace, so it now classifies as accepted. -/
def w9 : World :=
  ⟨fun t => ⟨1, t, "#REDIRECT [[Foo]]", true, 0⟩,
   fun _ => some 6, fun _ => some 6, fun _ => some 1,
   fun _ => "editor", fun _ => 3600, [], [], 0⟩

/-- Fixture store for C9: T tracked as pending with null specials, so the
claimed biconditional holds before the update. -/
def st9 : Store := ⟨[samplePage 1 (some "pend") "T" 6], [⟨1, 1⟩]⟩

/-- The store after the update: bucket 4 with still-null specials. -/
def st9' : Store :=
  ⟨[⟨1, some "accept", "T", "T", 10, none, "creator", 0, 1, "editor", 3600, 6,
     none, none, none⟩], [⟨1, 4⟩]⟩

/-- C9 counterexample: a store satisfying the claimed biconditional, an
`update_page` status transition into the accepted bucket, and the
resulting store violating the biconditional (terminal bucket, null
specials) — the claimed invariant is not preserved by update_page. -/
theorem special_biconditional_broken :
    special_iff_terminal st9 = true
    ∧ update_page w9 st9 "T" = Except.ok (st9', ["status"])
    ∧ special_iff_terminal st9' = false :=
  ⟨by decide, rfl, by decide⟩

/-- Witness for the amended C9 theorem at a concrete run: the store with
null specials keeps null specials through the status transition. -/
theorem special_fields_stay_null_witness :
    allSpecialNull st9 = true
    ∧ update_page w9 st9 "T" = Except.ok (st9', ["status"])
    ∧ allSpecialNull st9' = true :=
  ⟨by decide, rfl, by
    have hmain := special_fields_stay_null w9 st9 st9 "T" "a" "b"
      (st9', ["status"]) 0 (by decide)
    exact hmain.1 rfl⟩

/-- Every tracked record's stored modify revision id matches the
replica's current `page_latest` for its page id. -/
def all_fresh (w : World) (st : Store) : Bool :=
  st.pages.all fun p => w.replica_latest p.page_id == some p.page_modify_oldid

/-- A successful modify lookup pins down the replica's latest pointer. -/
theorem get_modify_ok (w : World) (pid : Nat) (m : String × Nat × Nat)
    (h : get_modify w pid = Except.ok m) :
    w.replica_latest pid = some m.2.2 := by
  unfold get_modify at h
  cases hrep : w.replica_latest pid with
  | none => rw [hrep] at h; cases h
  | some l =>
      rw [hrep] at h
      injection h with h
      rw [← h]

/-- A keyed write whose page component preserves the page id leaves the
page-id column unchanged. -/
theorem map_pid_pages_pid (st : Store) (pid : Nat) (fP : PageRow → PageRow)
    (fR : RowEntry → RowEntry) (hF : ∀ p, (fP p).page_id = p.page_id) :
    (map_pid st pid fP fR).pages.map (fun p => p.page_id)
      = st.pages.map (fun p => p.page_id) := by
  simp only [map_pid, List.map_map]
  apply List.map_congr_left
  intro p hp
  by_cases hk : (p.page_id == pid) = true <;> simp [Function.comp, hk, hF]

/-- The update transformation writes the computed modify revision id when
it differs from the fetched one and keeps the stored id otherwise. -/
theorem upd_page_fn_oldid (title short : String) (size : Nat) (mu : String)
    (mt mi : Nat) (status : Option String) (notes : Option String) (res p : PageRow) :
    (upd_page_fn title short size mu mt mi status notes res p).page_modify_oldid
      = if mi ≠ res.page_modify_oldid then mi else p.page_modify_oldid := by
  unfold upd_page_fn
  split_ifs <;> rfl

/-- A successful `update_page` run on a primary-key store leaves every
record with the target page id holding the replica's latest revision id as
its modify id, and leaves every other record's pair (page id, modify id)
unchanged. -/
theorem update_page_fresh_step (w : World) (st : Store) (t : String)
    (pr : Store × List String)
    (hnd : (st.pages.map (fun p => p.page_id)).Nodup)
    (h : update_page w st t = Except.ok pr) :
    ∃ l, w.replica_latest (w.get_page t).pageid = some l ∧
      pr.1.pages.map (fun p => p.page_id) = st.pages.map (fun p => p.page_id) ∧
      ∀ q ∈ pr.1.pages,
        (q.page_id = (w.get_page t).pageid → q.page_modify_oldid = l)
        ∧ (q.page_id ≠ (w.get_page t).pageid →
            ∃ p ∈ st.pages, p.page_id = q.page_id ∧
              p.page_modify_oldid = q.page_modify_oldid) := by
  obtain ⟨m, res, rest, heqm, heqj, hst'⟩ := update_page_ok_shape w st t pr.1 pr.2 h
  have hresmem := mem_join_by_pid st (w.get_page t).pageid res
    (by rw [heqj]; exact List.mem_cons_self _ _)
  obtain ⟨hres1mem, hres1pid, -, -⟩ := hresmem
  refine ⟨m.2.2, get_modify_ok w _ m heqm, ?_, ?_⟩
  · rw [hst']
    exact map_pid_pages_pid st (w.get_page t).pageid _ _
      (fun p => upd_page_fn_page_id _ _ _ _ _ _ _ _ res.1 p)
  · intro q hq
    rw [hst'] at hq
    have hq' : q ∈ st.pages.map fun p =>
        if (p.page_id == (w.get_page t).pageid) = true then
          upd_page_fn (w.get_page t).title (get_short_title (w.get_page t).title)
            (w.get_page t).content.length m.1 m.2.1 m.2.2
            (get_status_and_chart (w.get_page t)).1 (get_notes (w.get_page t)) res.1 p
        else p := hq
    rcases List.mem_map.1 hq' with ⟨p, hp, hq2⟩
    constructor
    · intro hqpid
      by_cases hk : (p.page_id == (w.get_page t).pageid) = true
      · rw [if_pos hk] at hq2
        rw [← hq2, upd_page_fn_oldid]
        by_cases hmi : m.2.2 ≠ res.1.page_modify_oldid
        · rw [if_pos hmi]
        · rw [if_neg hmi]
          have hpres : p = res.1 :=
            nodup_pid_unique st.pages hnd p res.1 hp hres1mem
              (by rw [(by simpa using hk : p.page_id = (w.get_page t).pageid),
                hres1pid])
          rw [hpres]
          exact (by simpa using hmi : m.2.2 = res.1.page_modify_oldid).symm
      · rw [if_neg hk] at hq2
        rw [← hq2] at hqpid
        exact absurd (by simp [hqpid] : (p.page_id == (w.get_page t).pageid) = true) hk
    · intro hqpid
      by_cases hk : (p.page_id == (w.get_page t).pageid) = true
      · rw [if_pos hk] at hq2
        have : q.page_id = p.page_id := by
          rw [← hq2, upd_page_fn_page_id]
        rw [this] at hqpid
        exact absurd (by simpa using hk) hqpid
      · rw [if_neg hk] at hq2
        exact ⟨p, hp, by rw [hq2], by rw [hq2]⟩

/-- A completed pass 1 certifies that every visited page id exists in the
replica (any missing id would have raised before finishing). -/
theorem sync_deleted_aux_some (w : World) : ∀ (l : List PageRow) (st st' : Store),
    sync_deleted_aux w l st = Except.ok st' →
    ∀ p ∈ l, (w.replica_latest p.page_id).isSome = true := by
  intro l
  induction l with
  | nil => intro st st' _ p hp; cases hp
  | cons p0 rest ih =>
      intro st st' h p hp
      unfold sync_deleted_aux at h
      split at h
      next v heq =>
        rcases List.mem_cons.1 hp with rfl | hp'
        · rw [heq]; rfl
        · exact ih st st' h p hp'
      · cases h

/-- The freshness invariant carried through pass 2: a record is either
already fresh or still awaits its own snapshot entry, and every processed
entry leaves its record fresh. -/
theorem sync_oldids_aux_fresh (w : World) : ∀ (L : List (Nat × String × Nat))
    (st st' : Store),
    sync_oldids_aux w L st = Except.ok st' →
    (st.pages.map (fun p => p.page_id)).Nodup →
    (∀ e ∈ L, (w.get_page e.2.1).pageid = e.1) →
    (∀ e ∈ L, (w.replica_latest e.1).isSome = true) →
    (∀ q ∈ st.pages, w.replica_latest q.page_id = some q.page_modify_oldid ∨
       ∃ e ∈ L, e.1 = q.page_id ∧ e.2.2 = q.page_modify_oldid) →
    ∀ q ∈ st'.pages, w.replica_latest q.page_id = some q.page_modify_oldid := by
  intro L
  induction L with
  | nil =>
      intro st st' h hnd hcoh hsome hinv q hq
      injection h with h
      rw [← h] at hq
      rcases hinv q hq with hfresh | ⟨e, he, -⟩
      · exact hfresh
      · cases he
  | cons e rest ih =>
      intro st st' h hnd hcoh hsome hinv q hq
      unfold sync_oldids_aux at h
      split at h
      next heq =>
        have := hsome e (List.mem_cons_self _ _)
        rw [heq] at this
        cases this
      next real heq =>
        have hpid : (w.get_page e.2.1).pageid = e.1 :=
          hcoh e (List.mem_cons_self _ _)
        split_ifs at h with hne
        · split at h
          · cases h
          next pr hupd =>
            obtain ⟨l, hl, hpids, hstep⟩ := update_page_fresh_step w st e.2.1 pr hnd hupd
            rw [hpid, heq] at hl
            injection hl with hl
            refine ih pr.1 st' h (by rw [hpids]; exact hnd)
              (fun e2 he2 => hcoh e2 (List.mem_cons_of_mem _ he2))
              (fun e2 he2 => hsome e2 (List.mem_cons_of_mem _ he2)) ?_ q hq
            intro q' hq'
            obtain ⟨hq_eq, hq_ne⟩ := hstep q' hq'
            by_cases hqe : q'.page_id = e.1
            · left
              rw [hqe, heq, hq_eq (by rw [hpid]; exact hqe), hl]
            · rcases hq_ne (by rw [hpid]; exact hqe) with ⟨p, hp, hpe, holdid⟩
              rcases hinv p hp with hfresh | ⟨e2, he2, h1, h2⟩
              · left
                rw [← hpe, ← holdid]
                exact hfresh
              · rcases List.mem_cons.1 he2 with rfl | he2'
                · exact absurd (h1.trans hpe).symm hqe
                · right
                  exact ⟨e2, he2', h1.trans hpe, h2.trans holdid⟩
        · refine ih st st' h hnd
            (fun e2 he2 => hcoh e2 (List.mem_cons_of_mem _ he2))
            (fun e2 he2 => hsome e2 (List.mem_cons_of_mem _ he2)) ?_ q hq
          intro q' hq'
          rcases hinv q' hq' with hfresh | ⟨e2, he2, h1, h2⟩
          · left
            exact hfresh
          · rcases List.mem_cons.1 he2 with rfl | he2'
            · left
              have hreal : real = e2.2.2 := by
                by_contra hc
                exact hne hc
              rw [← h1, heq, hreal, h2]
            · right
              exact ⟨e2, he2', h1, h2⟩

/-- C1 (amended main theorem): on a store satisfying the page-table
primary key whose stored titles still resolve through the wiki to their
stored page ids, a completed sweep leaves every still-tracked record's
stored modify revision id equal to the replica's current latest revision
id, the purge-stale pass having re-run the edit path on every record whose
two ids differed. -/
theorem sync_restores_modify_oldids (w : World) (st st' : Store)
    (hnd : (st.pages.map (fun p => p.page_id)).Nodup)
    (hcoh : ∀ p ∈ st.pages, (w.get_page p.page_title).pageid = p.page_id)
    (h : sync w st = Except.ok st') :
    all_fresh w st' = true := by
  unfold sync at h
  split at h
  · cases h
  next st1 h1 =>
    split at h
    · cases h
    next st2 h2 =>
      split at h
      · cases h
      next st3 h3 =>
        injection h with h
        unfold sync_deleted at h1
        have e1 : st1 = st := sync_deleted_aux_ok_eq w st.pages st st1 h1
        have hsome := sync_deleted_aux_some w st.pages st st1 h1
        subst e1
        unfold sync_oldids at h2
        have hfresh2 : ∀ q ∈ st2.pages,
            w.replica_latest q.page_id = some q.page_modify_oldid := by
          refine sync_oldids_aux_fresh w
            (st1.pages.map fun p => (p.page_id, p.page_title, p.page_modify_oldid))
            st1 st2 h2 hnd ?_ ?_ ?_
          · intro e he
            rcases List.mem_map.1 he with ⟨p, hp, he2⟩
            rw [← he2]
            exact hcoh p hp
          · intro e he
            rcases List.mem_map.1 he with ⟨p, hp, he2⟩
            rw [← he2]
            exact hsome p hp
          · intro q hq
            exact Or.inr ⟨(q.page_id, q.page_title, q.page_modify_oldid),
              List.mem_map.2 ⟨q, hq, rfl⟩, rfl, rfl⟩
        unfold sync_pending at h3
        have e3 : st3 = st2 := sync_pending_aux_ok_eq w _ _ st2 st3 h3
        subst e3
        rw [← h]
        simp only [all_fresh, List.all_eq_true, sync_old]
        intro p hp
        have hmem := (List.mem_filter.1 hp).1
        simp [hfresh2 p hmem]

/-- Counterexample world for C1: every title resolves through the wiki to
page id 2, so the record stored under page id 1 no longer matches its
title (e.g. the page was deleted and recreated elsewhere). -/
def cxW : World :=
  ⟨fun t => ⟨2, t, pendingContent, false, 0⟩,
   fun pid => if pid == 1 then some 6 else if pid == 2 then some 9 else none,
   fun _ => some 9, fun _ => some 2,
   fun _ => "editor", fun _ => 3600, [], [], 0⟩

/-- Counterexample store for C1: record 1 is stale (stored 5, replica 6),
record 2 is fresh. -/
def cxSt : Store :=
  ⟨[samplePage 1 (some "pend") "A" 5, samplePage 2 (some "pend") "B" 9],
   [⟨1, 1⟩, ⟨2, 1⟩]⟩

/-- The sweep's result on the counterexample: the purge-stale pass resolved
record 1's title through the wiki to page id 2 and re-pointed record 2's
title instead, leaving record 1 stale. -/
def cxSt' : Store :=
  ⟨[samplePage 1 (some "pend") "A" 5,
    ⟨2, some "pend", "A", "A", 10, none, "creator", 0, 1, "editor", 3600, 9,
     none, none, none⟩],
   [⟨1, 1⟩, ⟨2, 1⟩]⟩

/-- C1 counterexample: the sweep completes, the external state never
changes, yet a still-tracked record's stored modify revision id differs
from the replica's latest revision id, because the purge-stale pass keys
its updates on wiki-resolved titles rather than the stored page id. -/
theorem sync_stale_counterexample :
    sync cxW cxSt = Except.ok cxSt' ∧ all_fresh cxW cxSt' = false :=
  ⟨rfl, by decide⟩

/-- Witness for the amended C1 theorem: a coherent one-record store with a
stale modify id is refreshed to the replica's latest revision by the
sweep. -/
theorem sync_restores_modify_oldids_witness :
    sync wC7 stC7 = Except.ok stC7' ∧ all_fresh wC7 stC7' = true :=
  ⟨rfl, sync_restores_modify_oldids wC7 stC7 stC7' (by decide) (by decide) rfl⟩

end AfcStats
